import Mathlib

/-!
Shallow embedding of the transcript-controller logic of the demo chat
widget (`src/pages/Index.tsx`, `handleSendMessage` and the surrounding
component state).  Messages, the chat state, the webhook outcome and the
toast notifications are modelled as plain data; the asynchronous handler
is split at its single suspension point (the `fetch` call) into a
synchronous start phase and a synchronous settle phase.
-/

namespace DemoChat

/-- Message origin: `creator` renders on the remote side, `customer` is the
local user (field `type` of the `Message` interface). -/
inductive MsgType where
  | creator
  | customer
deriving DecidableEq, Repr

/-- JavaScript values that can result from `response.json()` or be assigned
to `responseMessage`: the JSON data model. -/
inductive Json where
  | null
  | bool (b : Bool)
  | num (n : Int)
  | str (s : String)
  | arr (elems : List Json)
  | obj (fields : List (String × Json))

/-- A transcript entry, after the `Message` interface of `Index.tsx`
(`id`, `text`, `type`, `timestamp`).  `text` carries the JavaScript value
stored in the field (a string for every message the controller itself
creates; the success path may store whatever truthy value the webhook
reply produced).  Timestamps are modelled as `Nat` milliseconds. -/
structure Message where
  id : String
  text : Json
  type : MsgType
  timestamp : Nat

/-- The component state owned by the controller: `messages`, `inputValue`
and `isLoading` (the three `useState` hooks of `Index.tsx`). -/
structure ChatState where
  messages : List Message
  inputValue : String
  isLoading : Bool

/-- A toast notification as fired through `useToast`. -/
structure Toast where
  title : String
  description : String
  destructive : Bool
deriving DecidableEq, Repr

/-- The settled `fetch` response: HTTP status, the body (`none` models a
null body, `some` carries the raw body text), and the result of
`response.json()` (which either yields structured data or throws a parse
error).  Reading the body through `response.json()` consumes the body
stream, so a later `response.text()` on the same response rejects
whenever the body is non-null. -/
structure HttpResponse where
  status : Nat
  body : Option String
  jsonResult : Except Unit Json

/-- `response.ok`: status in the inclusive range 200-299. -/
def HttpResponse.ok (r : HttpResponse) : Bool :=
  decide (200 ≤ r.status) && decide (r.status < 300)

/-- How the awaited `fetch` promise settles: resolved with a response of
any status, or rejected with a transport error. -/
inductive FetchOutcome where
  | resolved (r : HttpResponse)
  | netError

/-- JavaScript truthiness of a JSON-shaped value (`undefined` is handled
at the lookup site). -/
def truthy : Json → Bool
  | Json.null => false
  | Json.bool b => b
  | Json.num n => n != 0
  | Json.str s => s != ""
  | Json.arr _ => true
  | Json.obj _ => true

/-- Property access `d.k`: only objects carry own fields; the first
binding wins, everything else yields `undefined` (`none`). -/
def Json.getField : Json → String → Option Json
  | Json.obj fields, k => (fields.find? (fun p => p.1 == k)).map (fun p => p.2)
  | _, _ => none

/-- Truthiness of the access `d.k`: an absent field is `undefined`, which
is falsy. -/
def fieldTruthy (d : Json) (k : String) : Bool :=
  match d.getField k with
  | some v => truthy v
  | none => false

/-- Lowercase hexadecimal digit, for `JSON.stringify` control escapes. -/
def hexDigit (n : Nat) : Char :=
  if n < 10 then Char.ofNat (48 + n) else Char.ofNat (87 + n)

/-- String-literal escaping as performed by `JSON.stringify`. -/
def jsonEscapeChar (c : Char) : String :=
  if c = '"' then "\\\""
  else if c = '\\' then "\\\\"
  else if c = '\n' then "\\n"
  else if c = '\r' then "\\r"
  else if c = '\t' then "\\t"
  else if c.toNat < 32 then
    "\\u00" ++ String.mk [hexDigit (c.toNat / 16), hexDigit (c.toNat % 16)]
  else String.singleton c

/-- Escape a whole string for a JSON literal. -/
def jsonEscape (s : String) : String :=
  String.join (s.toList.map jsonEscapeChar)

mutual

/-- `JSON.stringify` on the JSON data model (deterministic here because
object fields are an ordered list). -/
def jsonStringify : Json → String
  | Json.null => "null"
  | Json.bool true => "true"
  | Json.bool false => "false"
  | Json.num n => toString n
  | Json.str s => "\"" ++ jsonEscape s ++ "\""
  | Json.arr es => "[" ++ stringifyElems es ++ "]"
  | Json.obj fs => "\x7b" ++ stringifyFields fs ++ "\x7d"

/-- Comma-separated serialization of array elements. -/
def stringifyElems : List Json → String
  | [] => ""
  | [e] => jsonStringify e
  | e :: e2 :: rest => jsonStringify e ++ "," ++ stringifyElems (e2 :: rest)

/-- Comma-separated serialization of object fields. -/
def stringifyFields : List (String × Json) → String
  | [] => ""
  | [(k, v)] => "\"" ++ jsonEscape k ++ "\":" ++ jsonStringify v
  | (k, v) :: f2 :: rest =>
    "\"" ++ jsonEscape k ++ "\":" ++ jsonStringify v ++ "," ++ stringifyFields (f2 :: rest)

end

/-- `Date.now().toString()` / template interpolation of a number: decimal
digits. -/
def jsNumToString (n : Nat) : String := Nat.repr n

/-- The extraction chain of `Index.tsx` lines 87-97, run on parsed
response data: check `responseData.response`, then `.message`, then
`.text` for truthiness; else a string datum is used as is; anything else
is `JSON.stringify`ed.  When `responseData` is `null`, the very first
access `responseData.response` throws a TypeError, modelled as `none`. -/
def extractFromJson (responseData : Json) : Option Json :=
  match responseData with
  | Json.null => none
  | d =>
    some (if fieldTruthy d "response" then (d.getField "response").getD Json.null
      else if fieldTruthy d "message" then (d.getField "message").getD Json.null
      else if fieldTruthy d "text" then (d.getField "text").getD Json.null
      else
        match d with
        | Json.str s2 => Json.str s2
        | d2 => Json.str (jsonStringify d2))

/-- `await response.text()` issued after `await response.json()` on the
same response (`Index.tsx` line 101): a null body was never disturbed, so
it resolves with the empty string; a non-null body stream was already
consumed by `response.json()`, so the read rejects with a TypeError,
modelled as `none`. -/
def secondBodyRead (r : HttpResponse) : Option String :=
  match r.body with
  | none => some ""
  | some _ => none

/-- `responseMessage` after the inner try/catch of `Index.tsx` lines
81-102, under Fetch body-consumption semantics: parsed data goes through
the extraction chain (which throws on `null` data); on any throw the
inner catch rereads the body with `response.text()`, which itself rejects
for a non-null body.  `none` means an exception escaped to the outer
catch of lines 129-139. -/
def extractResponseMessage (r : HttpResponse) : Option Json :=
  match r.jsonResult with
  | Except.ok d =>
    match extractFromJson d with
    | some m => some m
    | none => (secondBodyRead r).map Json.str
  | Except.error _ => (secondBodyRead r).map Json.str

/-- `responseMessage || 'No response received'` (`Index.tsx` line 109),
on the paths where `responseMessage` was produced at all. -/
def finalResponseText (r : HttpResponse) : Option Json :=
  (extractResponseMessage r).map
    (fun m => if truthy m then m else Json.str "No response received")

/-- The JavaScript whitespace class used by `String.prototype.trim`:
ASCII whitespace, NBSP, BOM, line and paragraph separators, and the
Unicode space separators. -/
def jsWhitespace (c : Char) : Bool :=
  c == ' ' || c == '\t' || c == '\n' || c == '\r'
  || c.toNat == 11 || c.toNat == 12 || c.toNat == 160 || c.toNat == 65279
  || c.toNat == 8232 || c.toNat == 8233 || c.toNat == 5760
  || (decide (8192 ≤ c.toNat) && decide (c.toNat ≤ 8202))
  || c.toNat == 8239 || c.toNat == 8287 || c.toNat == 12288

/-- `String.prototype.trim`: strip leading and trailing JavaScript
whitespace. -/
def jsTrim (s : String) : String :=
  List.asString (((s.data.dropWhile jsWhitespace).reverse.dropWhile jsWhitespace).reverse)

/-- The reserved placeholder entry id. -/
def typingId : String := "typing"

/-- The synchronous part of `handleSendMessage` up to the `fetch` call
(`Index.tsx` lines 34-74): no-op on blank trimmed input; otherwise set
`isLoading`, append the customer message, clear the input, append the
typing placeholder, and issue the request.  The second component is the
JSON body of the issued request, `none` when no request goes out. -/
def submitStart (s : ChatState) (now : Nat) : ChatState × Option String :=
  if jsTrim s.inputValue = "" then (s, none)
  else
    let messageText := jsTrim s.inputValue
    let newMessage : Message :=
      ⟨jsNumToString now, Json.str messageText, MsgType.customer, now⟩
    let typingMessage : Message :=
      ⟨typingId, Json.str "AI is typing...", MsgType.creator, now⟩
    (⟨s.messages ++ [newMessage, typingMessage], "", true⟩,
     some (jsonStringify (Json.obj [("message", Json.str messageText)])))

/-- The continuation of `handleSendMessage` after the `fetch` promise
settles (`Index.tsx` lines 76-142): on a 2xx response whose normalization
produces a `responseMessage`, remove every `typing` entry and append the
normalized reply with a success toast; on a 2xx response whose body
reread throws (non-JSON or null-JSON non-null body), the exception lands
in the outer catch: remove every `typing` entry, append nothing, fire the
destructive connection toast; on a non-2xx status or a transport error
remove every `typing` entry and fire a destructive toast; in every case
the `finally` block clears `isLoading`.  `now2` is `Date.now()` at settle
time. -/
def submitSettle (s : ChatState) (now2 : Nat) (outcome : FetchOutcome) :
    ChatState × List Toast :=
  match outcome with
  | FetchOutcome.resolved r =>
    if r.ok then
      match finalResponseText r with
      | some t =>
        (⟨s.messages.filter (fun m => m.id != typingId)
            ++ [⟨jsNumToString (now2 + 1), t, MsgType.creator, now2⟩], s.inputValue, false⟩,
         [⟨"Response received", "AI has responded to your message.", false⟩])
      | none =>
        (⟨s.messages.filter (fun m => m.id != typingId), s.inputValue, false⟩,
         [⟨"Connection Error", "Failed to connect to the webhook. Please try again.", true⟩])
    else
      (⟨s.messages.filter (fun m => m.id != typingId), s.inputValue, false⟩,
       [⟨"Webhook Error", "Server responded with status " ++ jsNumToString r.status, true⟩])
  | FetchOutcome.netError =>
      (⟨s.messages.filter (fun m => m.id != typingId), s.inputValue, false⟩,
       [⟨"Connection Error", "Failed to connect to the webhook. Please try again.", true⟩])

/-- One whole run of `handleSendMessage`: the start phase, then — when a
request was issued — the settle phase on the environment-chosen outcome.
Returns the final state, the toasts fired, and the request body issued. -/
def handleSendMessage (s : ChatState) (now now2 : Nat) (outcome : FetchOutcome) :
    ChatState × List Toast × Option String :=
  match submitStart s now with
  | (s1, none) => (s1, [], none)
  | (s1, some payload) =>
    let settled := submitSettle s1 now2 outcome
    (settled.1, settled.2, some payload)

/-- A form-submission event as deliverable through the rendered component:
while `isLoading` both the input and the submit button carry
`disabled` (`Index.tsx` lines 205 and 210), so no submission reaches
`handleSendMessage`; otherwise the event runs the start phase. -/
def submitEvent (s : ChatState) (now : Nat) : ChatState × Option String :=
  if s.isLoading then (s, none) else submitStart s now


/-! ## Supporting lemmas -/

theorem digitChar_isDigit (n : Nat) (h : n < 10) : (Nat.digitChar n).isDigit = true := by
  interval_cases n <;> decide

theorem toDigitsCore_mem (f : Nat) :
    ∀ (n : Nat) (ds : List Char), ∀ c ∈ Nat.toDigitsCore 10 f n ds,
      c ∈ ds ∨ c.isDigit = true := by
  induction f with
  | zero => intro n ds c hc; exact Or.inl hc
  | succ f ih =>
    intro n ds c hc
    simp only [Nat.toDigitsCore] at hc
    by_cases h : n / 10 = 0
    · rw [if_pos h] at hc
      rcases List.mem_cons.mp hc with h1 | h1
      · subst h1; exact Or.inr (digitChar_isDigit _ (Nat.mod_lt _ (by decide)))
      · exact Or.inl h1
    · rw [if_neg h] at hc
      rcases ih _ _ c hc with h1 | h1
      · rcases List.mem_cons.mp h1 with h2 | h2
        · subst h2; exact Or.inr (digitChar_isDigit _ (Nat.mod_lt _ (by decide)))
        · exact Or.inl h2
      · exact Or.inr h1

/-- The decimal rendering of a timestamp id can never collide with the
reserved placeholder id. -/
theorem jsNumToString_ne_typingId (n : Nat) : jsNumToString n ≠ typingId := by
  intro h
  have hdata : Nat.toDigits 10 n = "typing".data := by
    have h2 := congrArg String.data h
    simpa [jsNumToString, Nat.repr, List.asString, typingId] using h2
  have hmem : 't' ∈ Nat.toDigitsCore 10 (n + 1) n [] := by
    rw [show Nat.toDigitsCore 10 (n + 1) n [] = Nat.toDigits 10 n from rfl, hdata]
    decide
  rcases toDigitsCore_mem (n + 1) n [] 't' hmem with h1 | h1
  · exact absurd h1 (List.not_mem_nil 't')
  · exact absurd h1 (by decide)

theorem filter_no_typing_eq_self (l : List Message) (h : ∀ m ∈ l, m.id ≠ typingId) :
    l.filter (fun m => m.id != typingId) = l :=
  List.filter_eq_self.mpr (fun m hm => bne_iff_ne.mpr (h m hm))

/-- The transcript produced by the settle phase on a 2xx response whose
normalization produced a reply text: all placeholders removed, one
normalized reply appended. -/
theorem settle_ok_messages (s : ChatState) (now2 : Nat) (r : HttpResponse)
    (hok : r.ok = true) (t : Json) (ht : finalResponseText r = some t) :
    (submitSettle s now2 (FetchOutcome.resolved r)).1.messages
      = s.messages.filter (fun m => m.id != typingId)
        ++ [⟨jsNumToString (now2 + 1), t, MsgType.creator, now2⟩] := by
  simp [submitSettle, hok, ht]

/-- The state and toasts produced by the settle phase on a 2xx response
whose normalization threw to the outer catch: placeholders filtered,
nothing appended, one destructive connection toast. -/
theorem settle_ok_diverted (s : ChatState) (now2 : Nat) (r : HttpResponse)
    (hok : r.ok = true) (ht : finalResponseText r = none) :
    (submitSettle s now2 (FetchOutcome.resolved r)).1
        = ⟨s.messages.filter (fun m => m.id != typingId), s.inputValue, false⟩
    ∧ (submitSettle s now2 (FetchOutcome.resolved r)).2
        = [⟨"Connection Error", "Failed to connect to the webhook. Please try again.", true⟩] := by
  constructor <;> simp [submitSettle, hok, ht]

/-- The transcript and toasts produced by the settle phase on a non-2xx
response. -/
theorem settle_httpError (s : ChatState) (now2 : Nat) (r : HttpResponse)
    (hok : r.ok = false) :
    (submitSettle s now2 (FetchOutcome.resolved r)).1
        = ⟨s.messages.filter (fun m => m.id != typingId), s.inputValue, false⟩
    ∧ (submitSettle s now2 (FetchOutcome.resolved r)).2
        = [⟨"Webhook Error", "Server responded with status " ++ jsNumToString r.status, true⟩] := by
  constructor <;> simp [submitSettle, hok]

/-- The full-handler transcript on a 2xx outcome, non-blank input and a
produced reply text. -/
theorem handle_ok_messages (s : ChatState) (now now2 : Nat) (r : HttpResponse)
    (hne : jsTrim s.inputValue ≠ "") (hok : r.ok = true)
    (t : Json) (ht : finalResponseText r = some t) :
    (handleSendMessage s now now2 (FetchOutcome.resolved r)).1.messages
      = s.messages.filter (fun m => m.id != typingId)
        ++ [⟨jsNumToString now, Json.str (jsTrim s.inputValue), MsgType.customer, now⟩,
            ⟨jsNumToString (now2 + 1), t, MsgType.creator, now2⟩] := by
  have hpnew : ((jsNumToString now : String) != typingId) = true :=
    bne_iff_ne.mpr (jsNumToString_ne_typingId now)
  simp [handleSendMessage, submitStart, hne, submitSettle, hok, ht, List.filter_append,
    List.filter_cons, hpnew]

/-! ## Claim theorems -/

/-- Claim C1, amended: for every non-empty input, when submit resolves
successfully (HTTP 2xx) and the reply normalization produces a text
(the body parses as non-null JSON, or a null body falls back to the
fixed string), the transcript gains exactly one new local-origin message
whose text is the trimmed input and exactly one new remote-origin
message, and no placeholder entry remains in the transcript.  (The
original unconditional claim fails when the 2xx body does not parse as
non-null JSON: the reread of the consumed body throws and no remote
message is appended — see the counterexample.) -/
theorem submit_success_appends_pair
    (s : ChatState) (now now2 : Nat) (r : HttpResponse) (t : Json)
    (hne : jsTrim s.inputValue ≠ "")
    (hclean : ∀ m ∈ s.messages, m.id ≠ typingId)
    (hok : r.ok = true)
    (ht : finalResponseText r = some t) :
    ∃ reply : Message,
      (handleSendMessage s now now2 (FetchOutcome.resolved r)).1.messages
        = s.messages ++
            [⟨jsNumToString now, Json.str (jsTrim s.inputValue), MsgType.customer, now⟩, reply]
      ∧ reply.type = MsgType.creator
      ∧ ∀ m ∈ (handleSendMessage s now now2 (FetchOutcome.resolved r)).1.messages,
          m.id ≠ typingId := by
  refine ⟨⟨jsNumToString (now2 + 1), t, MsgType.creator, now2⟩, ?_, rfl, ?_⟩
  · rw [handle_ok_messages s now now2 r hne hok t ht, filter_no_typing_eq_self s.messages hclean]
  · rw [handle_ok_messages s now now2 r hne hok t ht, filter_no_typing_eq_self s.messages hclean]
    intro m hm
    rcases List.mem_append.mp hm with h1 | h1
    · exact hclean m h1
    · rcases List.mem_cons.mp h1 with h2 | h2
      · rw [h2]; exact jsNumToString_ne_typingId now
      · rcases List.mem_cons.mp h2 with h3 | h3
        · rw [h3]; exact jsNumToString_ne_typingId (now2 + 1)
        · exact absurd h3 (List.not_mem_nil m)

/-- Claim C1 witness at a concrete input. -/
theorem submit_success_appends_pair_w :
    ∃ reply : Message,
      (handleSendMessage ⟨[], "hi", false⟩ 1 2
          (FetchOutcome.resolved ⟨200, some "\x7b\"message\":\"Hello\"\x7d",
            Except.ok (Json.obj [("message", Json.str "Hello")])⟩)).1.messages
        = ([] : List Message) ++
            [⟨jsNumToString 1, Json.str (jsTrim "hi"), MsgType.customer, 1⟩, reply]
      ∧ reply.type = MsgType.creator
      ∧ ∀ m ∈ (handleSendMessage ⟨[], "hi", false⟩ 1 2
          (FetchOutcome.resolved ⟨200, some "\x7b\"message\":\"Hello\"\x7d",
            Except.ok (Json.obj [("message", Json.str "Hello")])⟩)).1.messages,
          m.id ≠ typingId :=
  submit_success_appends_pair ⟨[], "hi", false⟩ 1 2
    ⟨200, some "\x7b\"message\":\"Hello\"\x7d",
      Except.ok (Json.obj [("message", Json.str "Hello")])⟩
    (Json.str "Hello")
    (by decide) (by intro m hm; exact absurd hm (List.not_mem_nil m)) rfl rfl

/-- Claim C1 counterexample to the original statement: a 2xx resolution
whose plain-text body fails JSON parsing; the reread of the consumed body
throws to the outer catch, so the transcript gains only the local echo —
no remote-origin message — and the destructive connection toast fires. -/
theorem submit_success_original_cex :
    (handleSendMessage ⟨[], "hi", false⟩ 1 2
        (FetchOutcome.resolved ⟨200, some "not json", Except.error ()⟩)).1.messages
      = [⟨jsNumToString 1, Json.str (jsTrim "hi"), MsgType.customer, 1⟩]
    ∧ (handleSendMessage ⟨[], "hi", false⟩ 1 2
        (FetchOutcome.resolved ⟨200, some "not json", Except.error ()⟩)).2.1
      = [⟨"Connection Error", "Failed to connect to the webhook. Please try again.", true⟩] :=
  ⟨rfl, rfl⟩

/-- Claim C2: a form submission delivered while a submission is already in
flight (`isLoading` set, so the input and the submit button are disabled)
is a no-op: the state is unchanged and no request is issued. -/
theorem submit_while_loading_noop (s : ChatState) (now : Nat)
    (h : s.isLoading = true) :
    (submitEvent s now).1 = s ∧ (submitEvent s now).2 = none := by
  simp [submitEvent, h]

/-- Claim C2 witness at a concrete input. -/
theorem submit_while_loading_noop_w :
    (submitEvent ⟨[], "hi", true⟩ 5).1 = ⟨[], "hi", true⟩
    ∧ (submitEvent ⟨[], "hi", true⟩ 5).2 = none :=
  submit_while_loading_noop ⟨[], "hi", true⟩ 5 rfl

/-- Claim C3: blank (empty or whitespace-only) trimmed input makes the
whole handler a no-op: unchanged state, no toast, no outbound request. -/
theorem submit_blank_noop (s : ChatState) (now now2 : Nat)
    (outcome : FetchOutcome) (h : jsTrim s.inputValue = "") :
    (handleSendMessage s now now2 outcome).1 = s
    ∧ (handleSendMessage s now now2 outcome).2.1 = []
    ∧ (handleSendMessage s now now2 outcome).2.2 = none := by
  simp [handleSendMessage, submitStart, h]

/-- Claim C3 witness at a concrete input. -/
theorem submit_blank_noop_w :
    (handleSendMessage ⟨[], "   ", false⟩ 1 2 FetchOutcome.netError).1 = ⟨[], "   ", false⟩
    ∧ (handleSendMessage ⟨[], "   ", false⟩ 1 2 FetchOutcome.netError).2.1 = []
    ∧ (handleSendMessage ⟨[], "   ", false⟩ 1 2 FetchOutcome.netError).2.2 = none :=
  submit_blank_noop ⟨[], "   ", false⟩ 1 2 FetchOutcome.netError (by decide)

/-- Claim C4: a 2xx response whose JSON body is the object
`\x7b"message":"Hello"\x7d` makes the settle phase append a remote-origin
message whose text is exactly the string `Hello`. -/
theorem success_json_message_hello
    (s : ChatState) (now2 : Nat) (r : HttpResponse)
    (hok : r.ok = true)
    (hjson : r.jsonResult = Except.ok (Json.obj [("message", Json.str "Hello")])) :
    (submitSettle s now2 (FetchOutcome.resolved r)).1.messages
      = s.messages.filter (fun m => m.id != typingId)
        ++ [⟨jsNumToString (now2 + 1), Json.str "Hello", MsgType.creator, now2⟩] := by
  have hft : finalResponseText r = some (Json.str "Hello") := by
    unfold finalResponseText extractResponseMessage
    rw [hjson]
    rfl
  rw [settle_ok_messages s now2 r hok (Json.str "Hello") hft]

/-- Claim C4 witness at a concrete input. -/
theorem success_json_message_hello_w :
    (submitSettle ⟨[], "", false⟩ 7
        (FetchOutcome.resolved ⟨204, some "\x7b\"message\":\"Hello\"\x7d",
          Except.ok (Json.obj [("message", Json.str "Hello")])⟩)).1.messages
      = ([] : List Message).filter (fun m => m.id != typingId)
        ++ [⟨jsNumToString 8, Json.str "Hello", MsgType.creator, 7⟩] :=
  success_json_message_hello ⟨[], "", false⟩ 7
    ⟨204, some "\x7b\"message\":\"Hello\"\x7d",
      Except.ok (Json.obj [("message", Json.str "Hello")])⟩ rfl rfl

/-- Claim C5, evaluated on the code: for a 2xx response whose non-JSON
plain-text body reads `plain text reply`, `response.json()` consumes the
body and throws, the inner catch rereads the consumed body and that read
rejects, so the outer catch runs: the placeholder is filtered, no remote
message — in particular none carrying the body text — is appended, and
the destructive connection toast fires.  This refutes the claimed
plain-text fallback, which the code comment at `Index.tsx` lines 99-100
documents as intended. -/
theorem plain_text_reply_diverted :
    (submitSettle ⟨[], "", false⟩ 7
        (FetchOutcome.resolved ⟨200, some "plain text reply", Except.error ()⟩)).1.messages
      = []
    ∧ (submitSettle ⟨[], "", false⟩ 7
        (FetchOutcome.resolved ⟨200, some "plain text reply", Except.error ()⟩)).2
      = [⟨"Connection Error", "Failed to connect to the webhook. Please try again.", true⟩] :=
  ⟨rfl, rfl⟩

/-- Claim C6: on an HTTP 500 response the settle phase removes the
placeholder, appends nothing, and fires exactly one destructive toast. -/
theorem http500_removes_placeholder_one_toast
    (s : ChatState) (now2 : Nat) (r : HttpResponse) (h : r.status = 500) :
    (submitSettle s now2 (FetchOutcome.resolved r)).1.messages
      = s.messages.filter (fun m => m.id != typingId)
    ∧ (submitSettle s now2 (FetchOutcome.resolved r)).2
      = [⟨"Webhook Error", "Server responded with status 500", true⟩] := by
  have hok : r.ok = false := by simp [HttpResponse.ok, h]
  have h2 := settle_httpError s now2 r hok
  refine ⟨by rw [h2.1], ?_⟩
  rw [h2.2, h]
  rfl

/-- Claim C6 witness at a concrete input. -/
theorem http500_removes_placeholder_one_toast_w :
    (submitSettle ⟨[], "", false⟩ 3
        (FetchOutcome.resolved ⟨500, none, Except.error ()⟩)).1.messages
      = ([] : List Message).filter (fun m => m.id != typingId)
    ∧ (submitSettle ⟨[], "", false⟩ 3
        (FetchOutcome.resolved ⟨500, none, Except.error ()⟩)).2
      = [⟨"Webhook Error", "Server responded with status 500", true⟩] :=
  http500_removes_placeholder_one_toast ⟨[], "", false⟩ 3 ⟨500, none, Except.error ()⟩ rfl

/-- Claim C7: a transport error settles to the same state as an HTTP 500
response — placeholder removed, nothing appended, `isLoading` cleared —
and fires exactly one destructive toast. -/
theorem neterror_same_as_http500
    (s : ChatState) (now2 : Nat) (r : HttpResponse) (h : r.status = 500) :
    (submitSettle s now2 FetchOutcome.netError).1
      = (submitSettle s now2 (FetchOutcome.resolved r)).1
    ∧ (submitSettle s now2 FetchOutcome.netError).2.length = 1
    ∧ ∀ t ∈ (submitSettle s now2 FetchOutcome.netError).2, t.destructive = true := by
  have hok : r.ok = false := by simp [HttpResponse.ok, h]
  refine ⟨?_, by simp [submitSettle], ?_⟩
  · rw [(settle_httpError s now2 r hok).1]
    rfl
  · intro t ht
    simp only [submitSettle, List.mem_singleton] at ht
    rw [ht]

/-- Claim C7 witness at a concrete input. -/
theorem neterror_same_as_http500_w :
    (submitSettle ⟨[], "", false⟩ 3 FetchOutcome.netError).1
      = (submitSettle ⟨[], "", false⟩ 3
          (FetchOutcome.resolved ⟨500, none, Except.error ()⟩)).1
    ∧ (submitSettle ⟨[], "", false⟩ 3 FetchOutcome.netError).2.length = 1
    ∧ ∀ t ∈ (submitSettle ⟨[], "", false⟩ 3 FetchOutcome.netError).2,
        t.destructive = true :=
  neterror_same_as_http500 ⟨[], "", false⟩ 3 ⟨500, none, Except.error ()⟩ rfl

/-- Claim C8, evaluated on the code: the claimed raw-body-text fallback
for a parse failure is not implemented — on a 2xx response whose non-null
body fails JSON parsing, the reread of the consumed body rejects, the
outer catch appends nothing (even with a placeholder present, which it
removes), and the destructive connection toast fires instead of any
best-effort extraction; the code comment at `Index.tsx` lines 99-100
documents the unimplemented fallback as intended. -/
theorem parse_failure_no_fallback :
    extractResponseMessage ⟨200, some "hello world", Except.error ()⟩ = none
    ∧ (submitSettle ⟨[⟨typingId, Json.str "AI is typing...", MsgType.creator, 0⟩], "", false⟩ 3
        (FetchOutcome.resolved ⟨200, some "hello world", Except.error ()⟩)).1.messages
      = []
    ∧ (submitSettle ⟨[⟨typingId, Json.str "AI is typing...", MsgType.creator, 0⟩], "", false⟩ 3
        (FetchOutcome.resolved ⟨200, some "hello world", Except.error ()⟩)).2
      = [⟨"Connection Error", "Failed to connect to the webhook. Please try again.", true⟩] :=
  ⟨rfl, rfl, rfl⟩

/-- Claim C9: every controller transition either appends at the end of
the transcript or removes exactly the entries bearing the placeholder id,
keeping every other entry and their order: the start phase appends a
suffix to the old transcript, and the settle phase appends a suffix to
the old transcript with the placeholder entries filtered out. -/
theorem transitions_append_or_remove_placeholder
    (s : ChatState) (now : Nat) (outcome : FetchOutcome) :
    (∃ l, (submitStart s now).1.messages = s.messages ++ l)
    ∧ (∃ l, (submitSettle s now outcome).1.messages
        = s.messages.filter (fun m => m.id != typingId) ++ l) := by
  constructor
  · by_cases h : jsTrim s.inputValue = ""
    · exact ⟨[], by simp [submitStart, h]⟩
    · refine ⟨[⟨jsNumToString now, Json.str (jsTrim s.inputValue), MsgType.customer, now⟩,
        ⟨typingId, Json.str "AI is typing...", MsgType.creator, now⟩], ?_⟩
      simp [submitStart, h]
  · match outcome with
    | FetchOutcome.resolved r =>
      by_cases hok : r.ok = true
      · cases hfin : finalResponseText r with
        | some t =>
          exact ⟨[⟨jsNumToString (now + 1), t, MsgType.creator, now⟩],
            settle_ok_messages s now r hok t hfin⟩
        | none =>
          refine ⟨[], ?_⟩
          rw [(settle_ok_diverted s now r hok hfin).1]
          simp
      · refine ⟨[], ?_⟩
        rw [(settle_httpError s now r (by simpa using hok)).1]
        simp
    | FetchOutcome.netError => exact ⟨[], by simp [submitSettle]⟩

/-- Claim C10: after the settle phase of any outcome, no entry with the
reserved placeholder id remains in the transcript, however many were
present beforehand, because removal filters every entry with that id. -/
theorem settle_no_placeholder_remains
    (s : ChatState) (now2 : Nat) (outcome : FetchOutcome) :
    ((submitSettle s now2 outcome).1.messages.all (fun m => m.id != typingId)) = true := by
  have hfil : (s.messages.filter (fun m => m.id != typingId)).all
      (fun m => m.id != typingId) = true := by
    rw [List.all_eq_true]
    intro m hm
    exact (List.mem_filter.mp hm).2
  match outcome with
  | FetchOutcome.resolved r =>
    by_cases hok : r.ok = true
    · cases hfin : finalResponseText r with
      | some t =>
        rw [settle_ok_messages s now2 r hok t hfin, List.all_append]
        refine (Bool.and_eq_true _ _).mpr ⟨hfil, ?_⟩
        simp [bne_iff_ne.mpr (jsNumToString_ne_typingId (now2 + 1))]
      | none =>
        rw [(settle_ok_diverted s now2 r hok hfin).1]
        exact hfil
    · rw [(settle_httpError s now2 r (by simpa using hok)).1]
      exact hfil
  | FetchOutcome.netError => exact hfil

end DemoChat
